import Mathlib

/-!
Shallow embedding of the credential-resolution and dispatch core of the
Universal Facebook Ads Server (src/unnamed/part_000) and its static tool
catalogue (src/src/schemas/tool-schemas.js).

External collaborators (the credential web service, the tool handlers, the
event bus carrying user messages) are modelled as explicit inputs; the
in-process mutable state (sessionUserMap, currentFacebookAccessToken,
activeSseTransport) is passed and returned explicitly.  JavaScript
truthiness tests that the source performs on strings and on optional
fields are modelled by explicit truthiness functions.
-/

namespace TenXer

/-- JSON-like values, used for tool-call arguments and results. -/
inductive Json where
  | null
  | bool (b : Bool)
  | num (n : Int)
  | str (s : String)
  | arr (xs : List Json)
  | obj (fields : List (String × Json))

/-- Errors thrown by the JavaScript code: a ReferenceError raised by
evaluating an unbound identifier, or an ordinary Error with a message. -/
inductive JsError where
  | referenceError (name : String)
  | error (message : String)
deriving Repr, DecidableEq

/-- Outcome of one outbound fetch: the network layer threw, or an HTTP
response arrived with the given res.ok flag and parsed JSON body. -/
inductive FetchResult (α : Type) where
  | netError
  | response (resOk : Bool) (body : α)
deriving Repr, DecidableEq

/-- Body shape of GET facebook_token_by_user, per the source reads
data.success and data.facebook_access_token. -/
structure TokenResponse where
  success : Bool
  facebook_access_token : Option String
deriving Repr, DecidableEq

/-- Body shape of GET get_latest_session_by_org_id, per the source reads
fallbackData.success, fallbackData.user_id, fallbackData.session_id. -/
structure FallbackResponse where
  success : Bool
  session_id : Option String
  user_id : Option String
deriving Repr, DecidableEq

/-- Body shape of POST save_user_session, per the source reads
result.success. -/
structure SaveResponse where
  success : Bool
deriving Repr, DecidableEq

/-- JavaScript truthiness of an optional string value: undefined and the
empty string are falsy, all other strings truthy. -/
def strTruthy : Option String → Bool
  | none => false
  | some s => s ≠ ""

/-- JavaScript truthiness of a JSON value (the cases a tool-call argument
can take): null, false, 0, and the empty string are falsy. -/
def jsTruthyVal : Json → Bool
  | .null => false
  | .bool b => b
  | .num n => n ≠ 0
  | .str s => s ≠ ""
  | .arr _ => true
  | .obj _ => true

/-- JavaScript truthiness of a possibly-absent JSON value. -/
def jsTruthy : Option Json → Bool
  | none => false
  | some v => jsTruthyVal v

/-- Field lookup in a JSON-style argument object (args.field). -/
def argsGet (args : List (String × Json)) (field : String) : Option Json :=
  (args.find? (fun p => p.1 == field)).map (·.2)

/-!
fetchLatestFacebookAccessToken (part_000 lines 83-110).

The function performs one GET keyed by the value it was passed, throws on
a non-ok status, assigns this.currentFacebookAccessToken exactly when the
body has a truthy success and a truthy facebook_access_token, and
otherwise throws, leaving the cached token unchanged.  The service
response to this single request is the svc input; the cached token before
the call is the cache input; the pair returned is (thrown-or-ok, cache
after the call).
-/
def fetchLatestFacebookAccessToken (svc : FetchResult TokenResponse)
    (cache : Option String) : Except JsError Unit × Option String :=
  match svc with
  | .netError => (.error (.error "fetch failed"), cache)
  | .response resOk data =>
    if resOk = false then
      (.error (.error "Failed to fetch Facebook token"), cache)
    else if data.success && strTruthy data.facebook_access_token then
      (.ok (), data.facebook_access_token)
    else
      (.error (.error "Token not present in response"), cache)

/-- Structural type of one schema property (tool-schemas.js).  Description
strings and the minItems/maxItems/default annotations are omitted: they
are documentation and bounds that no code under src consults. -/
inductive SchemaType where
  | string
  | number
  | boolean
  | stringOrNumber
  | arrayOf (items : SchemaType)
  | objectOf (props : List (String × SchemaType))

/-- One entry of the static tool catalogue. -/
structure ToolSchema where
  properties : List (String × SchemaType)
  required : List String
  additionalProperties : Bool

/-- TOOL_SCHEMAS (src/src/schemas/tool-schemas.js lines 23-216): the six
active tools, in source order, with their properties and required lists.
The commented-out facebook_login / facebook_logout / facebook_check_auth
entries are not part of the catalogue. -/
def TOOL_SCHEMAS : List (String × ToolSchema) :=
  [ ("facebook_list_ad_accounts",
      { properties := [("organization_id", .string)],
        required := [],
        additionalProperties := false }),
    ("facebook_fetch_pagination_url",
      { properties := [("url", .string), ("organization_id", .string)],
        required := ["url"],
        additionalProperties := false }),
    ("facebook_get_details_of_ad_account",
      { properties := [("act_id", .string), ("fields", .arrayOf .string),
          ("organization_id", .string)],
        required := ["act_id"],
        additionalProperties := false }),
    ("facebook_get_adaccount_insights",
      { properties := [("act_id", .string), ("fields", .arrayOf .string),
          ("date_preset", .string), ("level", .string),
          ("action_attribution_windows", .arrayOf .string),
          ("action_breakdowns", .arrayOf .string),
          ("breakdowns", .arrayOf .string),
          ("time_range", .objectOf [("since", .string), ("until", .string)]),
          ("limit", .number), ("sort", .string), ("after", .string),
          ("before", .string), ("time_increment", .stringOrNumber),
          ("organization_id", .string)],
        required := ["act_id", "fields"],
        additionalProperties := false }),
    ("facebook_get_activities_by_adaccount",
      { properties := [("act_id", .string), ("fields", .arrayOf .string),
          ("since", .string), ("until", .string),
          ("time_range", .objectOf [("since", .string), ("until", .string)]),
          ("limit", .number), ("after", .string), ("before", .string),
          ("organization_id", .string)],
        required := ["act_id"],
        additionalProperties := false }),
    ("facebook_get_ad_creatives",
      { properties := [("ad_ids", .arrayOf .string),
          ("include_images", .boolean), ("organization_id", .string)],
        required := ["ad_ids"],
        additionalProperties := false }) ]

/-- Object.keys(TOOL_SCHEMAS): the registered tool names, in order. -/
def toolNames : List String := TOOL_SCHEMAS.map (·.1)

/-- The sessionUserMap (part_000 line 75): an insertion-ordered map.  Its
keys are the values of this.activeSseTransport?.sessionId at insertion
time, which can be undefined, hence Option String. -/
abbrev SessionMap := List (Option String × String)

/-- Map.get: the value stored under the key, when present. -/
def mapGet (m : SessionMap) (k : Option String) : Option String :=
  (m.find? (fun p => p.1 == k)).map (·.2)

/-- Map.set: replace the value under an existing key, else append. -/
def mapSet (m : SessionMap) (k : Option String) (v : String) : SessionMap :=
  if m.any (fun p => p.1 == k) then
    m.map (fun p => if p.1 == k then (k, v) else p)
  else m ++ [(k, v)]

/-- One observable interaction with an external collaborator: an outbound
request to the credential service, or an invocation of a tool handler. -/
inductive ExtCall where
  | fallbackByOrg (organizationId : Json)
  | tokenByUser (userId : Option String)
  | saveUserSession (userId : String) (sessionId : String)
      (serverIp : Option String) (organizationId : Option String)
  | handlerCall (toolName : String) (args : List (String × Json))
      (credential : Option String)

/-- An SSE transport; its sessionId may be absent. -/
structure SseTransport where
  sessionId : Option String
deriving Repr, DecidableEq

/-- this.activeSseTransport?.sessionId. -/
def sseSessionIdOf : Option SseTransport → Option String
  | none => none
  | some t => t.sessionId

/-- The process-level state read by one tool call: the
FACEBOOK_ACCESS_TOKEN environment variable, the session registry, the
active SSE transport, and the cached access token. -/
structure ServerState where
  envFacebookAccessToken : Option String
  sessionUserMap : SessionMap
  activeSseTransport : Option SseTransport
  currentFacebookAccessToken : Option String

/-- The external credential service, as the responses it would give to
the two GET requests a tool call can make. -/
structure Services where
  fallbackByOrg : Json → FetchResult FallbackResponse
  tokenByUser : Option String → FetchResult TokenResponse

/-- The six imported tool handlers, external collaborators invoked with
(args, credential); a handler failure is its thrown message. -/
structure Handlers where
  listAdAccounts : List (String × Json) → Option String → Except String Json
  fetchPaginationUrl : List (String × Json) → Option String → Except String Json
  getAccountDetails : List (String × Json) → Option String → Except String Json
  getAccountInsights : List (String × Json) → Option String → Except String Json
  getAccountActivities : List (String × Json) → Option String → Except String Json
  getAdCreatives : List (String × Json) → Option String → Except String Json

/-- askOrganizationId (part_000 lines 1391-1406).  Its first statement is
`await sendMessageToUser(...)`, written without `this.`; the module has
no binding named sendMessageToUser (the method of that name lives on the
class), so evaluating the identifier throws a ReferenceError before any
prompt is sent, any wait begins, or any network request is made. -/
def askOrganizationId : Except JsError String × List ExtCall :=
  (.error (.referenceError "sendMessageToUser is not defined"), [])

/-- The organization-id fallback branch of resolveUserIdFromSessionOrOrg
(part_000 lines 1460-1482): require a truthy organizationId, GET the
latest session for the organization, throw on a non-ok status, throw when
the body lacks a truthy success or a truthy user_id, and otherwise return
the body.session_id field (which is not checked for presence). -/
def resolveOrgFallback (organizationId : Json) (svc : Services) :
    Except JsError (Option String) × List ExtCall :=
  if jsTruthyVal organizationId = false then
    (.error (.error "Organization ID is required for fallback resolution."), [])
  else
    match svc.fallbackByOrg organizationId with
    | .netError =>
      (.error (.error "fetch failed"), [.fallbackByOrg organizationId])
    | .response resOk body =>
      if resOk = false then
        (.error (.error "HTTP error from fallback API"), [.fallbackByOrg organizationId])
      else if body.success && strTruthy body.user_id then
        (.ok body.session_id, [.fallbackByOrg organizationId])
      else
        (.error (.error "No valid session found for organization ID."), [.fallbackByOrg organizationId])

/-- resolveUserIdFromSessionOrOrg (part_000 lines 1453-1483): look the
sessionId up in sessionUserMap and return the stored value when truthy;
otherwise run the organization-id fallback. -/
def resolveUserIdFromSessionOrOrg (sessionUserMap : SessionMap)
    (sessionId : Option String) (organizationId : Json) (svc : Services) :
    Except JsError (Option String) × List ExtCall :=
  let user_id := mapGet sessionUserMap sessionId
  if strTruthy user_id then (.ok user_id, [])
  else resolveOrgFallback organizationId svc

/-- Lift a handler outcome into the dispatch error type: a handler throw
propagates as an ordinary Error carrying the handler message. -/
def liftHandler : Except String Json → Except JsError Json
  | .ok v => .ok v
  | .error m => .error (.error m)

/-- The value returned by the _list_tools case: a content block whose text
is JSON.stringify(Object.keys(TOOL_SCHEMAS)); the stringify rendering is
modelled as the array of the names themselves. -/
def listToolsPayload : Json :=
  .obj [("content",
    .arr [.obj [("type", .str "text"), ("text", .arr (toolNames.map .str))]])]

/-- The switch statement of executeToolCall (part_000 lines 1525-1566):
each of the six catalogue tools invokes its handler with (args,
credential); facebook_get_ad_thumbnails throws its disabled message;
_list_tools returns the name list; any other name throws Unknown tool.
No case inspects args before passing them to the handler. -/
def toolSwitch (h : Handlers) (toolName : String)
    (args : List (String × Json)) (credential : Option String) :
    Except JsError Json × List ExtCall :=
  if toolName = "facebook_list_ad_accounts" then
    (liftHandler (h.listAdAccounts args credential),
     [.handlerCall toolName args credential])
  else if toolName = "facebook_fetch_pagination_url" then
    (liftHandler (h.fetchPaginationUrl args credential),
     [.handlerCall toolName args credential])
  else if toolName = "facebook_get_details_of_ad_account" then
    (liftHandler (h.getAccountDetails args credential),
     [.handlerCall toolName args credential])
  else if toolName = "facebook_get_adaccount_insights" then
    (liftHandler (h.getAccountInsights args credential),
     [.handlerCall toolName args credential])
  else if toolName = "facebook_get_activities_by_adaccount" then
    (liftHandler (h.getAccountActivities args credential),
     [.handlerCall toolName args credential])
  else if toolName = "facebook_get_ad_creatives" then
    (liftHandler (h.getAdCreatives args credential),
     [.handlerCall toolName args credential])
  else if toolName = "facebook_get_ad_thumbnails" then
    (.error (.error "get_ad_thumbnails_embedded tool is temporarily disabled"), [])
  else if toolName = "_list_tools" then
    (.ok listToolsPayload, [])
  else
    (.error (.error ("Unknown tool: " ++ toolName)), [])

/-- Everything observable about one executeToolCall: its returned value or
thrown error, the cached access token afterwards, and the external
interactions it performed, in order. -/
structure ExecOutcome where
  result : Except JsError Json
  currentFacebookAccessToken : Option String
  calls : List ExtCall

/-- The resolution-then-dispatch tail of executeToolCall, entered once a
truthy organizationId value is in hand: resolve the user id from the
session map or the organization fallback, fetch the access token for it,
and on success run the tool switch with the freshly cached token. -/
def executeResolved (st : ServerState) (svc : Services) (h : Handlers)
    (toolName : String) (args : List (String × Json)) (org : Json)
    (calls0 : List ExtCall) : ExecOutcome :=
  let res1 := resolveUserIdFromSessionOrOrg st.sessionUserMap
    (sseSessionIdOf st.activeSseTransport) org svc
  match res1.1 with
  | .error e =>
    { result := .error e,
      currentFacebookAccessToken := st.currentFacebookAccessToken,
      calls := calls0 ++ res1.2 }
  | .ok userId =>
    let res2 := fetchLatestFacebookAccessToken (svc.tokenByUser userId)
      st.currentFacebookAccessToken
    match res2.1 with
    | .error e =>
      { result := .error e,
        currentFacebookAccessToken := res2.2,
        calls := calls0 ++ res1.2 ++ [.tokenByUser userId] }
    | .ok _ =>
      let sw := toolSwitch h toolName args res2.2
      { result := sw.1,
        currentFacebookAccessToken := res2.2,
        calls := calls0 ++ res1.2 ++ [.tokenByUser userId] ++ sw.2 }

/-- executeToolCall (part_000 lines 1485-1567), the active definition.
The credential-resolution phase runs unconditionally for every toolName
(the authExemptTools guard is commented out in the source): take
args.organization_id; when falsy, call askOrganizationId (whose thrown
error propagates); then resolve a user id, fetch the token for it, and
only then enter the tool switch.  The FACEBOOK_ACCESS_TOKEN environment
variable is never read on this path: the tiered fetchFacebookAccessToken
that consults it (lines 112-160) has no caller in the active code. -/
def executeToolCall (st : ServerState) (svc : Services) (h : Handlers)
    (toolName : String) (args : List (String × Json)) : ExecOutcome :=
  let orgVal := argsGet args "organization_id"
  if jsTruthy orgVal then
    match orgVal with
    | some org => executeResolved st svc h toolName args org []
    | none =>
      { result := .error (.error "unreachable: truthy value is present"),
        currentFacebookAccessToken := st.currentFacebookAccessToken,
        calls := [] }
  else
    match askOrganizationId with
    | (.error e, cs) =>
      { result := .error e,
        currentFacebookAccessToken := st.currentFacebookAccessToken,
        calls := cs }
    | (.ok orgId, cs) =>
      if orgId = "" then
        { result := .error (.error "Organization ID is required but was not provided."),
          currentFacebookAccessToken := st.currentFacebookAccessToken,
          calls := cs }
      else executeResolved st svc h toolName args (.str orgId) cs

/-- One user_message event on the message bus: the session it belongs to
and its content. -/
structure BusMsg where
  sessionId : String
  content : Json

/-- Resource actions the interactive wait performs on the bus and on the
timer: registering and removing the user_message listener, arming the
timeout, and (never emitted by the source) clearing it. -/
inductive WaitEvent where
  | listenerOn
  | listenerOff
  | timerSet (ms : Nat)
  | timerCleared
deriving Repr, DecidableEq

/-- Default bound of the interactive wait (timeoutMs = 60000). -/
def defaultWaitTimeoutMs : Nat := 60000

/-- The first user_message event whose sessionId matches the wait. -/
def firstMatching (sid : String) (events : List (Nat × BusMsg)) :
    Option (Nat × BusMsg) :=
  events.find? (fun p => p.2.sessionId == sid)

/-- waitForUserResponse (part_000 lines 1426-1450), as a function of the
stream of user_message events (arrival time in ms after the wait starts,
message) delivered on the bus.  The promise rejects at once when no
active transport with a sessionId exists.  Otherwise a listener is
registered and a timer for timeoutMs is armed; the first matching event
settles the promise and removes the listener when it arrives before the
timer fires, and otherwise the timer fires, removes the listener and
rejects with the timeout error (a matching event after the bound is not
consumed, the listener being gone).  No path clears the timer: the source
never stores the setTimeout handle and contains no clearTimeout call.
The emitter this.messageBus is referenced but never constructed in the
sources; modelled from the spec: a channel of user_message events keyed
by sessionId. -/
def waitForUserResponse (transport : Option SseTransport) (timeoutMs : Nat)
    (events : List (Nat × BusMsg)) : Except JsError Json × List WaitEvent :=
  match transport with
  | none => (.error (.error "No active session for user response."), [])
  | some t =>
    match t.sessionId with
    | none => (.error (.error "No active session for user response."), [])
    | some sid =>
      match firstMatching sid events with
      | some (tArr, msg) =>
        if tArr < timeoutMs then
          (.ok msg.content, [.listenerOn, .timerSet timeoutMs, .listenerOff])
        else
          (.error (.error "User response timed out."),
           [.listenerOn, .timerSet timeoutMs, .listenerOff])
      | none =>
        (.error (.error "User response timed out."),
         [.listenerOn, .timerSet timeoutMs, .listenerOff])

/-- Body and connection context of one POST /trigger-token-fetch request. -/
structure RegRequest where
  access_token : Option String
  user_id : Option String
  organization_id : Option String
  headerSessionId : Option String
  cookieSessionId : Option String

/-- JavaScript a || b on optional strings: a when truthy, else b. -/
def jsOrStr (a b : Option String) : Option String :=
  if strTruthy a then a else b

/-- Everything observable about one registration request: the HTTP status
responded, the session registry afterwards, and the outbound calls. -/
structure RegOutcome where
  status : Nat
  sessionUserMap : SessionMap
  calls : List ExtCall

/-- The POST /trigger-token-fetch handler (part_000 lines 977-1037).
Reject with 400 when access_token or user_id is falsy; derive sessionId
from the session-id header or the session_id cookie and reject with 400
when falsy; then execute
sessionUserMap.set(this.activeSseTransport?.sessionId, sessionId) — the
key is the SSE transport session and the stored value is the derived
sessionId, not user_id — and POST user_id, session_id, server_ip and
organization_id to save_user_session, answering 200 exactly when the
response body has success. -/
def triggerTokenFetch (sessionUserMap : SessionMap)
    (activeSseTransport : Option SseTransport) (req : RegRequest)
    (localIP : Option String) (saveSvc : FetchResult SaveResponse) :
    RegOutcome :=
  if strTruthy req.access_token = false || strTruthy req.user_id = false then
    { status := 400, sessionUserMap := sessionUserMap, calls := [] }
  else
    match jsOrStr req.headerSessionId req.cookieSessionId with
    | none => { status := 400, sessionUserMap := sessionUserMap, calls := [] }
    | some sid =>
      if sid = "" then
        { status := 400, sessionUserMap := sessionUserMap, calls := [] }
      else
        let uid := req.user_id.getD ""
        let map2 := mapSet sessionUserMap (sseSessionIdOf activeSseTransport) sid
        let call := ExtCall.saveUserSession uid sid localIP req.organization_id
        match saveSvc with
        | .netError => { status := 500, sessionUserMap := map2, calls := [call] }
        | .response _ body =>
          if body.success then
            { status := 200, sessionUserMap := map2, calls := [call] }
          else
            { status := 500, sessionUserMap := map2, calls := [call] }

/-- The schema registered for a tool name, when any. -/
def schemaFor (toolName : String) : Option ToolSchema :=
  (TOOL_SCHEMAS.find? (fun p => p.1 == toolName)).map (·.2)

/-- Handlers that all succeed with null, for concrete evaluations. -/
def trivialHandlers : Handlers :=
  { listAdAccounts := fun _ _ => .ok .null,
    fetchPaginationUrl := fun _ _ => .ok .null,
    getAccountDetails := fun _ _ => .ok .null,
    getAccountInsights := fun _ _ => .ok .null,
    getAccountActivities := fun _ _ => .ok .null,
    getAdCreatives := fun _ _ => .ok .null }

/-- The handler a catalogue tool name dispatches to, when any. -/
def catalogueHandler (h : Handlers) (toolName : String) :
    Option (List (String × Json) → Option String → Except String Json) :=
  if toolName = "facebook_list_ad_accounts" then some h.listAdAccounts
  else if toolName = "facebook_fetch_pagination_url" then some h.fetchPaginationUrl
  else if toolName = "facebook_get_details_of_ad_account" then some h.getAccountDetails
  else if toolName = "facebook_get_adaccount_insights" then some h.getAccountInsights
  else if toolName = "facebook_get_activities_by_adaccount" then some h.getAccountActivities
  else if toolName = "facebook_get_ad_creatives" then some h.getAdCreatives
  else none

/-- A credential service that answers no request. -/
def svcNever : Services :=
  { fallbackByOrg := fun _ => .netError,
    tokenByUser := fun _ => .netError }

/-- A credential service whose token endpoint always succeeds with the
token tok. -/
def svcToken : Services :=
  { fallbackByOrg := fun _ => .netError,
    tokenByUser := fun _ =>
      .response true { success := true, facebook_access_token := some "tok" } }

/-- A credential service whose token endpoint succeeds with SERVICETOKEN,
used to contrast with a configured static override. -/
def svcC1 : Services :=
  { fallbackByOrg := fun _ => .netError,
    tokenByUser := fun _ =>
      .response true { success := true, facebook_access_token := some "SERVICETOKEN" } }

/-- A credential service whose organization fallback succeeds with
distinct session_id and user_id fields. -/
def svcC7 : Services :=
  { fallbackByOrg := fun _ =>
      .response true { success := true, session_id := some "s1", user_id := some "u1" },
    tokenByUser := fun _ => .netError }

/-- A credential service whose organization fallback answers with a body
lacking the success flag. -/
def svcC7fail : Services :=
  { fallbackByOrg := fun _ =>
      .response true { success := false, session_id := some "s1", user_id := some "u1" },
    tokenByUser := fun _ => .netError }

/-- Server state with no active SSE transport and an empty registry. -/
def stNoConn : ServerState :=
  { envFacebookAccessToken := none,
    sessionUserMap := [],
    activeSseTransport := none,
    currentFacebookAccessToken := none }

/-- Server state with an active SSE transport whose session is S. -/
def stConn : ServerState :=
  { envFacebookAccessToken := none,
    sessionUserMap := [],
    activeSseTransport := some { sessionId := some "S" },
    currentFacebookAccessToken := none }

/-- Server state with a live registered session S resolving to u1. -/
def stLive : ServerState :=
  { envFacebookAccessToken := none,
    sessionUserMap := [(some "S", "u1")],
    activeSseTransport := some { sessionId := some "S" },
    currentFacebookAccessToken := none }

/-- stLive with the static override credential configured. -/
def stC1 : ServerState :=
  { envFacebookAccessToken := some "OVERRIDE",
    sessionUserMap := [(some "S", "u1")],
    activeSseTransport := some { sessionId := some "S" },
    currentFacebookAccessToken := none }

/-- Arguments carrying only a truthy organization_id. -/
def argsOrg : List (String × Json) := [("organization_id", .str "org1")]

/-- A registration request with all fields supplied via the header. -/
def reqC9 : RegRequest :=
  { access_token := some "tok",
    user_id := some "u1",
    organization_id := some "org1",
    headerSessionId := some "abc",
    cookieSessionId := none }

/-!
Theorems settling the claims.
-/

/-- C1 counterexample: with the static override OVERRIDE configured, a
valid organization_id, a live session resolving to u1, and the token
service reachable and answering SERVICETOKEN, executeToolCall caches the
service token and dispatches with it; resolution does not return the
configured override. -/
theorem c1_counterexample :
    (executeToolCall stC1 svcC1 trivialHandlers "facebook_list_ad_accounts"
        argsOrg).currentFacebookAccessToken = some "SERVICETOKEN"
    ∧ (executeToolCall stC1 svcC1 trivialHandlers "facebook_list_ad_accounts"
        argsOrg).result = .ok .null
    ∧ stC1.envFacebookAccessToken = some "OVERRIDE"
    ∧ ("SERVICETOKEN" : String) ≠ "OVERRIDE" :=
  ⟨rfl, rfl, rfl, by decide⟩

/-- C1 amended: the active tool-call path never consults the
FACEBOOK_ACCESS_TOKEN override; the outcome of executeToolCall is the
same whatever value that environment variable holds. -/
theorem c1_override_independent (st : ServerState) (e1 e2 : Option String)
    (svc : Services) (h : Handlers) (toolName : String)
    (args : List (String × Json)) :
    executeToolCall { st with envFacebookAccessToken := e1 } svc h toolName args
      = executeToolCall { st with envFacebookAccessToken := e2 } svc h toolName args := by
  cases st
  rfl

/-- C2: a tool call whose args carry no organization_id throws the
ReferenceError raised by the unbound identifier sendMessageToUser, with
no external call attempted, both when no active connection exists and
when an active SSE connection with a session is present; no prompt is
sent and no bounded wait begins. -/
theorem c2_missing_org_reference_error :
    (executeToolCall stNoConn svcNever trivialHandlers
        "facebook_list_ad_accounts" []).result
      = .error (.referenceError "sendMessageToUser is not defined")
    ∧ (executeToolCall stNoConn svcNever trivialHandlers
        "facebook_list_ad_accounts" []).calls = []
    ∧ (executeToolCall stConn svcNever trivialHandlers
        "facebook_list_ad_accounts" []).result
      = .error (.referenceError "sendMessageToUser is not defined")
    ∧ (executeToolCall stConn svcNever trivialHandlers
        "facebook_list_ad_accounts" []).calls = [] :=
  ⟨rfl, rfl, rfl, rfl⟩

/-- C3 counterexample: the reflective _list_tools call does not bypass
credential resolution and does not always succeed: with no
organization_id and no active connection it fails in the resolution
phase and returns no tool list. -/
theorem c3_counterexample :
    (executeToolCall stNoConn svcNever trivialHandlers "_list_tools" []).result
      = .error (.referenceError "sendMessageToUser is not defined")
    ∧ ¬ ∃ v, (executeToolCall stNoConn svcNever trivialHandlers
        "_list_tools" []).result = .ok v := by
  refine ⟨rfl, ?_⟩
  rintro ⟨v, hv⟩
  exact Except.noConfusion hv

/-- C3 amended: _list_tools passes through credential resolution like any
other tool; when args carry a truthy organization_id, the user id
resolves, and the token fetch succeeds, the call returns the list of
registered tool names. -/
theorem c3_list_tools_after_resolution (st : ServerState) (svc : Services)
    (h : Handlers) (args : List (String × Json)) (org : Json)
    (userId : Option String) (body : TokenResponse) (tok : String)
    (horg : argsGet args "organization_id" = some org)
    (htruthy : jsTruthyVal org = true)
    (hres : (resolveUserIdFromSessionOrOrg st.sessionUserMap
        (sseSessionIdOf st.activeSseTransport) org svc).1 = .ok userId)
    (htok : svc.tokenByUser userId = .response true body)
    (hsucc : body.success = true)
    (htokv : body.facebook_access_token = some tok)
    (hne : tok ≠ "") :
    (executeToolCall st svc h "_list_tools" args).result = .ok listToolsPayload := by
  simp only [executeToolCall, horg, jsTruthy, htruthy, if_true, executeResolved, hres,
    htok, fetchLatestFacebookAccessToken, hsucc, htokv, strTruthy, toolSwitch]
  simp [hne]

/-- C3 witness: a concrete resolution-succeeding _list_tools call that
returns the registered tool names. -/
theorem c3_witness :
    (executeToolCall stLive svcToken trivialHandlers "_list_tools"
        argsOrg).result = .ok listToolsPayload :=
  c3_list_tools_after_resolution stLive svcToken trivialHandlers argsOrg
    (.str "org1") (some "u1")
    { success := true, facebook_access_token := some "tok" } "tok"
    rfl (by decide) rfl rfl rfl rfl (by decide)

/-- C4 counterexample: facebook_get_ad_thumbnails is not in the static
catalogue, yet dispatch fails with the disabled-tool message, which is
not the Unknown tool error. -/
theorem c4_counterexample :
    "facebook_get_ad_thumbnails" ∉ toolNames
    ∧ (toolSwitch trivialHandlers "facebook_get_ad_thumbnails" [] none).1
      = .error (.error "get_ad_thumbnails_embedded tool is temporarily disabled")
    ∧ (JsError.error "get_ad_thumbnails_embedded tool is temporarily disabled")
      ≠ .error ("Unknown tool: " ++ "facebook_get_ad_thumbnails") :=
  ⟨by decide, rfl, by decide⟩

/-- C4 amended: every toolName outside the static catalogue other than
the disabled facebook_get_ad_thumbnails case and the reflective
_list_tools case makes dispatch fail with the Unknown tool error,
whatever handlers, args and credential are in play. -/
theorem c4_unknown_tool (h : Handlers) (toolName : String)
    (args : List (String × Json)) (credential : Option String)
    (h1 : toolName ∉ toolNames)
    (h2 : toolName ≠ "facebook_get_ad_thumbnails")
    (h3 : toolName ≠ "_list_tools") :
    toolSwitch h toolName args credential
      = (.error (.error ("Unknown tool: " ++ toolName)), []) := by
  simp only [toolNames, TOOL_SCHEMAS, List.map_cons, List.map_nil, List.mem_cons,
    List.not_mem_nil, or_false, not_or] at h1
  obtain ⟨n1, n2, n3, n4, n5, n6⟩ := h1
  simp [toolSwitch, n1, n2, n3, n4, n5, n6, h2, h3]

/-- C4 witness: a name absent from the catalogue dispatches to the
Unknown tool error. -/
theorem c4_witness :
    toolSwitch trivialHandlers "nope" [] none
      = (.error (.error ("Unknown tool: " ++ "nope")), []) :=
  c4_unknown_tool trivialHandlers "nope" [] none (by decide) (by decide) (by decide)

/-- C5 counterexample: the catalogue marks url as required for
facebook_fetch_pagination_url, the args lack it, yet the dispatcher
invokes the handler with those very args and the call returns the
handler result: no InvalidArguments validation failure exists. -/
theorem c5_counterexample :
    (∃ s, schemaFor "facebook_fetch_pagination_url" = some s ∧ "url" ∈ s.required)
    ∧ argsGet argsOrg "url" = none
    ∧ (executeToolCall stLive svcToken trivialHandlers
        "facebook_fetch_pagination_url" argsOrg).result = .ok .null
    ∧ (executeToolCall stLive svcToken trivialHandlers
        "facebook_fetch_pagination_url" argsOrg).calls
      = [.tokenByUser (some "u1"),
         .handlerCall "facebook_fetch_pagination_url" argsOrg (some "tok")] := by
  exact ⟨⟨_, rfl, by decide⟩, rfl, rfl, rfl⟩

/-- C5 amended: dispatch performs no schema validation at all: for every
catalogue tool the handler is invoked with the args and credential
exactly as given, and the call result is the handler outcome. -/
theorem c5_no_validation_passthrough (h : Handlers) (toolName : String)
    (args : List (String × Json)) (credential : Option String)
    (f : List (String × Json) → Option String → Except String Json)
    (hf : catalogueHandler h toolName = some f) :
    toolSwitch h toolName args credential
      = (liftHandler (f args credential), [.handlerCall toolName args credential]) := by
  simp only [catalogueHandler] at hf
  split_ifs at hf with h1 h2 h3 h4 h5 h6
  · injection hf with hf; subst hf; subst h1; simp [toolSwitch]
  · injection hf with hf; subst hf; subst h2; simp [toolSwitch]
  · injection hf with hf; subst hf; subst h3; simp [toolSwitch]
  · injection hf with hf; subst hf; subst h4; simp [toolSwitch]
  · injection hf with hf; subst hf; subst h5; simp [toolSwitch]
  · injection hf with hf; subst hf; subst h6; simp [toolSwitch]

/-- C5 witness: the list-accounts handler receives empty args untouched. -/
theorem c5_witness :
    toolSwitch trivialHandlers "facebook_list_ad_accounts" [] none
      = (liftHandler (trivialHandlers.listAdAccounts [] none),
         [.handlerCall "facebook_list_ad_accounts" [] none]) :=
  c5_no_validation_passthrough trivialHandlers "facebook_list_ad_accounts" [] none
    trivialHandlers.listAdAccounts rfl

/-- C6: when the active session is present in the registry with a
nonempty caller identity, resolution returns that identity and performs
no external call, short-circuiting the organization fallback. -/
theorem c6_session_short_circuit (sessionUserMap : SessionMap)
    (sessionId : Option String) (organizationId : Json) (svc : Services)
    (uid : String) (hget : mapGet sessionUserMap sessionId = some uid)
    (hne : uid ≠ "") :
    resolveUserIdFromSessionOrOrg sessionUserMap sessionId organizationId svc
      = (.ok (some uid), []) := by
  simp [resolveUserIdFromSessionOrOrg, hget, strTruthy, hne]

/-- C6 witness: registering session abc for u1 and resolving with an
irrelevant organization_id returns u1 with no fallback call. -/
theorem c6_witness :
    resolveUserIdFromSessionOrOrg [(some "abc", "u1")] (some "abc")
        (.str "ignored") svcNever = (.ok (some "u1"), []) :=
  c6_session_short_circuit [(some "abc", "u1")] (some "abc") (.str "ignored")
    svcNever "u1" rfl (by decide)

/-- C7 counterexample: on a registry miss with a successful fallback
response whose session_id is s1 and whose user_id is u1, resolution
returns the session_id field s1, not the user u1. -/
theorem c7_counterexample :
    resolveUserIdFromSessionOrOrg [] none (.str "org1") svcC7
      = (.ok (some "s1"), [.fallbackByOrg (.str "org1")])
    ∧ ("s1" : String) ≠ "u1" :=
  ⟨rfl, by decide⟩

/-- C7 amended: on a registry miss the organization fallback is invoked
exactly once; a body lacking the success flag or lacking a truthy
user_id is a terminal failure; and on success the resolved identity is
the body session_id field. -/
theorem c7_fallback_amended (sessionUserMap : SessionMap)
    (sessionId : Option String) (organizationId : Json) (svc : Services)
    (body : FallbackResponse)
    (hmiss : strTruthy (mapGet sessionUserMap sessionId) = false)
    (htruthy : jsTruthyVal organizationId = true)
    (hsvc : svc.fallbackByOrg organizationId = .response true body) :
    (body.success = false ∨ strTruthy body.user_id = false →
      resolveUserIdFromSessionOrOrg sessionUserMap sessionId organizationId svc
        = (.error (.error "No valid session found for organization ID."),
           [.fallbackByOrg organizationId]))
    ∧ (body.success = true → strTruthy body.user_id = true →
      resolveUserIdFromSessionOrOrg sessionUserMap sessionId organizationId svc
        = (.ok body.session_id, [.fallbackByOrg organizationId])) := by
  constructor
  · intro hfail
    rcases hfail with hf | hf <;>
      simp [resolveUserIdFromSessionOrOrg, resolveOrgFallback, hmiss, htruthy, hsvc, hf]
  · intro hs hu
    simp [resolveUserIdFromSessionOrOrg, resolveOrgFallback, hmiss, htruthy, hsvc, hs, hu]

/-- C7 witness: a fallback body without the success flag is a terminal
failure, and the fallback was invoked. -/
theorem c7_witness :
    resolveUserIdFromSessionOrOrg [] none (.str "org1") svcC7fail
      = (.error (.error "No valid session found for organization ID."),
         [.fallbackByOrg (.str "org1")]) :=
  (c7_fallback_amended [] none (.str "org1") svcC7fail
    { success := false, session_id := some "s1", user_id := some "u1" }
    rfl (by decide) rfl).1 (Or.inl rfl)

/-- C8 counterexample: a reply arriving at 10ms, well before the 60000ms
bound, resolves the wait and removes the listener, but the performed
resource actions contain no timer clearing: the timer is not released on
early reply. -/
theorem c8_counterexample :
    waitForUserResponse (some { sessionId := some "S" }) defaultWaitTimeoutMs
        [(10, { sessionId := "S", content := .str "org42" })]
      = (.ok (.str "org42"),
         [.listenerOn, .timerSet defaultWaitTimeoutMs, .listenerOff])
    ∧ WaitEvent.timerCleared
        ∉ [WaitEvent.listenerOn, .timerSet defaultWaitTimeoutMs, .listenerOff] :=
  ⟨rfl, by decide⟩

/-- C8 amended: on every settled wait the pending listener is removed and
the timer is never cleared; expiry with no matching reply fails with the
timeout error, and a matching reply before the bound resolves the wait. -/
theorem c8_wait_amended (sid : String) (timeoutMs : Nat)
    (events : List (Nat × BusMsg)) :
    WaitEvent.listenerOff
        ∈ (waitForUserResponse (some ⟨some sid⟩) timeoutMs events).2
    ∧ WaitEvent.timerCleared
        ∉ (waitForUserResponse (some ⟨some sid⟩) timeoutMs events).2
    ∧ (firstMatching sid events = none →
        (waitForUserResponse (some ⟨some sid⟩) timeoutMs events).1
          = .error (.error "User response timed out."))
    ∧ (∀ p, firstMatching sid events = some p → p.1 < timeoutMs →
        (waitForUserResponse (some ⟨some sid⟩) timeoutMs events).1
          = .ok p.2.content) := by
  cases hfm : firstMatching sid events with
  | none =>
    refine ⟨?_, ?_, fun _ => ?_, fun p hm => ?_⟩
    · simp [waitForUserResponse, hfm]
    · simp [waitForUserResponse, hfm]
    · simp [waitForUserResponse, hfm]
    · exact fun _ => Option.noConfusion hm
  | some q =>
    obtain ⟨tArr, msg0⟩ := q
    by_cases ht : tArr < timeoutMs
    · refine ⟨?_, ?_, fun hnone => ?_, fun p hm hlt => ?_⟩
      · simp [waitForUserResponse, hfm, ht]
      · simp [waitForUserResponse, hfm, ht]
      · exact Option.noConfusion hnone
      · injection hm with hm
        subst hm
        simp [waitForUserResponse, hfm, ht]
    · refine ⟨?_, ?_, fun hnone => ?_, fun p hm hlt => ?_⟩
      · simp [waitForUserResponse, hfm, ht]
      · simp [waitForUserResponse, hfm, ht]
      · exact Option.noConfusion hnone
      · injection hm with hm
        subst hm
        exact absurd hlt ht

/-- C8 witness: with no reply the wait fails with the timeout error, and
with a matching reply at 10ms it resolves to that reply. -/
theorem c8_witness :
    (waitForUserResponse (some { sessionId := some "S" }) 60000 []).1
      = .error (.error "User response timed out.")
    ∧ (waitForUserResponse (some { sessionId := some "S" }) 60000
        [(10, { sessionId := "S", content := .str "hi" })]).1
      = .ok (.str "hi") :=
  ⟨(c8_wait_amended "S" 60000 []).2.2.1 rfl,
   (c8_wait_amended "S" 60000 [(10, { sessionId := "S", content := .str "hi" })]).2.2.2
     (10, { sessionId := "S", content := .str "hi" }) rfl (by decide)⟩

/-- C9: evaluating the registration endpoint on a request with
access_token tok, user_id u1, organization_id org1 and derived session
identifier abc, while the active SSE transport session is T, forwards
u1, abc and org1 to save_user_session as the claim states, but records
the registry mapping (T maps to abc): the key is the transport session,
the stored value is the derived session identifier, and the caller
identity u1 is not recorded, so looking up abc finds nothing. -/
theorem c9_registration_records_session_not_user :
    triggerTokenFetch [] (some { sessionId := some "T" }) reqC9
        (some "1.2.3.4") (.response true { success := true })
      = { status := 200,
          sessionUserMap := [(some "T", "abc")],
          calls := [.saveUserSession "u1" "abc" (some "1.2.3.4") (some "org1")] }
    ∧ mapGet [(some "T", "abc")] (some "abc") = none
    ∧ ("abc" : String) ≠ "u1" :=
  ⟨rfl, rfl, by decide⟩

/-- C10: fetchLatestFacebookAccessToken is atomic on the cached token:
every thrown outcome leaves the cache unchanged, and an ok outcome can
arise only from an ok response whose body has the success flag and a
nonempty token, in which case the cache holds exactly that token. -/
theorem c10_token_fetch_atomic (svc : FetchResult TokenResponse)
    (cache : Option String) :
    ((∃ e, (fetchLatestFacebookAccessToken svc cache).1 = .error e) →
      (fetchLatestFacebookAccessToken svc cache).2 = cache)
    ∧ ((fetchLatestFacebookAccessToken svc cache).1 = .ok () →
      ∃ body tok, svc = .response true body ∧ body.success = true
        ∧ body.facebook_access_token = some tok ∧ tok ≠ ""
        ∧ (fetchLatestFacebookAccessToken svc cache).2 = some tok) := by
  cases svc with
  | netError => exact ⟨fun _ => rfl, fun hok => Except.noConfusion hok⟩
  | response resOk body =>
    cases resOk with
    | false => exact ⟨fun _ => rfl, fun hok => Except.noConfusion hok⟩
    | true =>
      by_cases hcond : (body.success && strTruthy body.facebook_access_token) = true
      · constructor
        · intro ⟨e, he⟩
          simp [fetchLatestFacebookAccessToken, hcond] at he
        · intro _
          rcases Bool.and_eq_true_iff.mp hcond with ⟨hs, ht⟩
          cases htok : body.facebook_access_token with
          | none => rw [htok] at ht; simp [strTruthy] at ht
          | some tok =>
            refine ⟨body, tok, rfl, hs, htok, ?_, ?_⟩
            · rw [htok] at ht; simpa [strTruthy] using ht
            · rw [htok] at ht
              simp [fetchLatestFacebookAccessToken, hcond, htok, hs, ht]
      · constructor
        · intro _
          simp [fetchLatestFacebookAccessToken, hcond]
        · intro hok
          simp [fetchLatestFacebookAccessToken, hcond] at hok

/-- C10 witness: a transport error leaves the cached token in place, and
a successful response with token T1 caches exactly T1. -/
theorem c10_witness :
    (fetchLatestFacebookAccessToken .netError (some "keep")).2 = some "keep"
    ∧ ∃ body tok,
        (.response true { success := true, facebook_access_token := some "T1" }
          : FetchResult TokenResponse) = .response true body
        ∧ body.success = true ∧ body.facebook_access_token = some tok ∧ tok ≠ ""
        ∧ (fetchLatestFacebookAccessToken
            (.response true { success := true, facebook_access_token := some "T1" })
            none).2 = some tok :=
  ⟨(c10_token_fetch_atomic .netError (some "keep")).1 ⟨.error "fetch failed", rfl⟩,
   (c10_token_fetch_atomic _ none).2 rfl⟩

end TenXer

